import Mathlib

/-!
# Verification of the RAG pipeline of the campus-safety assistant

Shallow embedding of the Retrieval-Augmented-Generation core of the
repository:

* `backend/services/ragService.ts` (current version) — the `RAGService`
  class: `generateEmbedding`, `searchDocuments`, `generateAnswer`,
  `processQuestion`;
* `.history/backend/controllers/chatController_20260214171145.ts` (latest
  controller snapshot) — `askQuestion`, `processAndSaveDocument`,
  `deleteDocument`;
* `.history/backend/controllers/chatController_20260214100540.ts` (earlier
  controller snapshot) — its own `askQuestion` with inlined RAG helpers.

External collaborators (the MongoDB document store, the Voyage embedding
provider, the Gemini generative provider, the conversation store) are
modelled as an explicit environment record of call outcomes; each outbound
call a function makes is also recorded in an event trace, so that
"no network call is made" and "a conversation was created with title t"
are statable.

JavaScript string primitives (`substring`, `trim`, template literals,
truthiness of numbers/arrays) are modelled explicitly; string length
counts characters (the code never slices inside surrogate pairs in any
claim-relevant place).

`utils/textProcessing.ts` (`cleanText`, `chunkText`, `truncateText`) and
`models/Document.ts` (`vectorSearch`, `findSimilar`) are not present in
the source tree — only their callers are; those parts are modelled from
the specification and marked `Modelled from the spec:` below.
-/

/-! ## JavaScript string semantics -/

/-- JavaScript `String.prototype.substring(a, b)` for `a ≤ b`
(the only form the code uses): the characters at positions `[a, b)`. -/
def jsSubstring (s : String) (a b : Nat) : String :=
  String.mk ((s.data.drop a).take (b - a))

/-- JavaScript `String.prototype.trim()`: strip leading and trailing
whitespace. -/
def jsTrim (s : String) : String :=
  String.mk (((s.data.dropWhile Char.isWhitespace).reverse.dropWhile
    Char.isWhitespace).reverse)

/-- Rendering of `Number.prototype.toFixed(1)` for the nonnegative
similarity scores that occur: one decimal digit, rounding half up. -/
def toFixed1 (x : ℚ) : String :=
  let n : ℤ := ⌊x * 10 + 1/2⌋
  toString (n / 10) ++ "." ++ toString (n % 10).natAbs

/-! ## Data model

`IDocument` (from `models/Document.ts`, reconstructed from its uses in
`ragService.ts` and both controllers): title, body text, category,
chunking metadata.  A `RetrievalResult` is a document together with the
optional similarity score attached by vector search
(`IDocument & { similarity?: number }` in the source). -/

structure Doc where
  title : String
  content : String
  category : String
  isChunk : Bool
  chunkIndex : Option Nat
deriving DecidableEq, Repr

structure RDoc extends Doc where
  similarity : Option ℚ
deriving DecidableEq, Repr

/-- A document lexical text search returns carries no similarity score
(`findSimilar` is typed `Promise<IDocument[]>` in
`chatController_20260214100540.ts` line 104). -/
def Doc.toRDoc (d : Doc) : RDoc := { toDoc := d, similarity := none }

/-- Shape of the Voyage AI embeddings response
(`VoyageEmbeddingResponse` in `ragService.ts`). -/
structure VoyageData where
  embedding : List ℚ
deriving DecidableEq, Repr

structure VoyageEmbeddingResponse where
  data : List VoyageData
deriving DecidableEq, Repr

/-! ## Environment: outcomes of external calls

Each field gives, per input, the outcome the external collaborator would
produce for that call.  `Except String α` models a promise that either
resolves (`ok`) or rejects with an error message (`error`). -/

structure Env where
  /-- whether `VOYAGE_API_KEY` is set -/
  voyageKey : Bool
  /-- whether `GEMINI_API_KEY` is set (checked only by the 20260214100540
  controller's `generateAIResponse`) -/
  geminiKey : Bool
  /-- outcome of the `axios.post` to the Voyage embeddings endpoint -/
  voyageResponse : String → Except String VoyageEmbeddingResponse
  /-- outcome of `DocumentModel.vectorSearch(embedding, limit)` -/
  vectorSearch : List ℚ → Nat → Except String (List RDoc)
  /-- Modelled from the spec: `DocumentModel.findSimilar(query, limit)`
  (lexical/full-text search, `models/Document.ts` is not in the source
  tree) returns up to `limit` documents with no similarity score. -/
  findSimilar : String → Nat → Except String (List Doc)
  /-- outcome of `model.generateContent(prompt)` followed by
  `response.text()` -/
  gemini : String → Except String String
  /-- outcome of `Conversation.findOne({_id, user})`: whether a
  conversation owned by the user was found (or the query rejected) -/
  findConv : String → String → Except String Bool
  /-- outcome of `conversation.save()` after setting `lastMessage` -/
  saveConv : String → String → Except String Unit
  /-- outcome of `Conversation.create({user, title, lastMessage})`:
  the new conversation id -/
  createConv : String → String → String → Except String String
  /-- outcome of `Chat.create({user, conversation, role, text})` -/
  createChat : String → String → String → String → Except String Unit

/-- One outbound call to an external collaborator. -/
inductive CallEv where
  | embed (text : String)
  | vsearch (embedding : List ℚ) (limit : Nat)
  | tsearch (query : String) (limit : Nat)
  | generate (prompt : String)
  | findConv (cid uid : String)
  | saveConv (cid lastMessage : String)
  | createConv (uid title lastMessage : String)
  | createChat (uid cid role text : String)
deriving DecidableEq, Repr

/-! ## RAGService (`backend/services/ragService.ts`) -/

/-- `RAGService.generateEmbedding` (ragService.ts lines 44–71), with its
call trace.  Without a Voyage key it returns `null` before any network
call; otherwise it posts to the provider, returns
`response.data?.data?.[0]?.embedding` when present, and converts any
rejection to `null`. -/
def generateEmbeddingT (env : Env) (text : String) :
    Option (List ℚ) × List CallEv :=
  if env.voyageKey = false then (none, [])
  else
    match env.voyageResponse text with
    | .error _ => (none, [.embed text])
    | .ok r =>
      match r.data with
      | [] => (none, [.embed text])
      | d :: _ => (some d.embedding, [.embed text])

def generateEmbedding (env : Env) (text : String) : Option (List ℚ) :=
  (generateEmbeddingT env text).1

/-- The text-search fallback branch of `searchDocuments`
(ragService.ts lines 92–98): on rejection the results collected so far
(the empty list) are returned. -/
def textSearchFallback (env : Env) (query : String) (limit : Nat) :
    List RDoc :=
  match env.findSimilar query limit with
  | .ok ds => ds.map Doc.toRDoc
  | .error _ => []

/-- `RAGService.searchDocuments` (ragService.ts lines 76–101), with its
call trace: try vector search when a nonempty embedding exists, return
its results when nonempty, otherwise fall back to lexical text search;
a rejected text search yields the empty list. -/
def searchDocumentsT (env : Env) (query : String)
    (embedding : Option (List ℚ)) (limit : Nat) :
    List RDoc × List CallEv :=
  match embedding with
  | some e =>
    if e.length > 0 then
      match env.vectorSearch e limit with
      | .ok rs =>
        if rs.length > 0 then (rs, [.vsearch e limit])
        else (textSearchFallback env query limit,
          [.vsearch e limit, .tsearch query limit])
      | .error _ =>
        (textSearchFallback env query limit,
          [.vsearch e limit, .tsearch query limit])
    else (textSearchFallback env query limit, [.tsearch query limit])
  | none => (textSearchFallback env query limit, [.tsearch query limit])

def searchDocuments (env : Env) (query : String)
    (embedding : Option (List ℚ)) (limit : Nat) : List RDoc :=
  (searchDocumentsT env query embedding limit).1

/-- Modelled from the spec: `truncateText` from `utils/textProcessing.ts`
is not in the source tree; the spec describes "a bounded excerpt of its
body (truncated to a fixed character budget per document)".  Modelled as:
the text unchanged when within the budget, otherwise its first `limit`
characters followed by an ellipsis. -/
def truncateText (s : String) (limit : Nat) : String :=
  if s.length ≤ limit then s else String.mk (s.data.take limit) ++ "..."

/-- The `info` constant of `generateAnswer` (ragService.ts line 113):
`doc.similarity ? ' (Relevance: …%)' : ''` — JavaScript truthiness, so a
missing score and a score of exactly 0 both yield the empty string. -/
def relevanceInfo (doc : RDoc) : String :=
  match doc.similarity with
  | some s =>
    if s = 0 then "" else " (Relevance: " ++ toFixed1 (s * 100) ++ "%)"
  | none => ""

/-- The per-document rendering inside `generateAnswer`
(ragService.ts line 114). -/
def renderContextDoc (index : Nat) (doc : RDoc) : String :=
  "Document " ++ toString (index + 1) ++ ": " ++ doc.title
    ++ relevanceInfo doc ++ "\nContent: " ++ truncateText doc.content 1000

/-- `contextText` of `generateAnswer` (ragService.ts lines 111–116). -/
def buildContextText (context : List RDoc) : String :=
  if context.length > 0 then
    String.intercalate "\n\n"
      (context.enum.map (fun p => renderContextDoc p.1 p.2))
  else "No specific documents found in the database."

/-- The prompt of `generateAnswer` (ragService.ts lines 119–124). -/
def buildPrompt (question : String) (context : List RDoc) : String :=
  String.intercalate "\n\n"
    [ "System: You are \"ዘብ AI\" (Zeb AI), the smart campus safety assistant for ASTU. Answer concisely and professionally.",
      "Instructions: Use the CONTEXT DOCUMENTS to answer the USER QUESTION. If you must use general knowledge, clearly state it\x27s general advice. If this is an active emergency, give emergency contacts and safety guidance. Do NOT fabricate ASTU-specific facts. Cite document titles when possible.",
      "CONTEXT DOCUMENTS:\n" ++ buildContextText context,
      "USER QUESTION:\n" ++ question ]

/-- `RAGService.generateAnswer` (ragService.ts lines 106–140), with its
call trace.  A rejected provider call, or an empty/whitespace-only
response text, makes the function throw the stable wrapped error
`'Failed to generate response from AI service.'`; the provider's own
error payload is discarded. -/
def generateAnswerT (env : Env) (question : String)
    (context : List RDoc) : Except String String × List CallEv :=
  let prompt := buildPrompt question context
  match env.gemini prompt with
  | .error _ =>
    (.error "Failed to generate response from AI service.", [.generate prompt])
  | .ok t =>
    if (jsTrim t).length = 0 then
      (.error "Failed to generate response from AI service.", [.generate prompt])
    else (.ok (jsTrim t), [.generate prompt])

def generateAnswer (env : Env) (question : String)
    (context : List RDoc) : Except String String :=
  (generateAnswerT env question context).1

/-- `RAGService.processQuestion` (ragService.ts lines 145–159):
embed, retrieve (limit defaults to 3), generate. -/
def processQuestionT (env : Env) (question : String) :
    Except String (String × List RDoc) × List CallEv :=
  let r1 := generateEmbeddingT env question
  let r2 := searchDocumentsT env question r1.1 3
  let r3 := generateAnswerT env question r2.1
  (r3.1.map (fun a => (a, r2.1)), r1.2 ++ r2.2 ++ r3.2)

def processQuestion (env : Env) (question : String) :
    Except String (String × List RDoc) :=
  (processQuestionT env question).1

/-! ## Controller layer: HTTP responses and the conversation phase

Both controller snapshots share the response shapes and the
conversation/chat-history code verbatim; the shared pieces are defined
once. -/

structure AskBody where
  question : Option String
  conversationId : Option String
deriving DecidableEq, Repr

/-- The JSON a controller handler sends. -/
structure HttpResp where
  status : Nat
  success : Bool
  message : Option String
  answer : Option String
  sources : Option (List RDoc)
  conversationId : Option String
  errorMsg : Option String
deriving DecidableEq, Repr

def resp401 : HttpResp :=
  { status := 401, success := false, message := some "Not authorized",
    answer := none, sources := none, conversationId := none,
    errorMsg := none }

def resp400 (m : String) : HttpResp :=
  { status := 400, success := false, message := some m,
    answer := none, sources := none, conversationId := none,
    errorMsg := none }

def resp500 (m e : String) : HttpResp :=
  { status := 500, success := false, message := some m,
    answer := none, sources := none, conversationId := none,
    errorMsg := some e }

/-- The conversation-handling block of `askQuestion`
(chatController_20260214171145.ts lines 40–61, identical in the
20260214100540 snapshot lines 256–278): update the supplied conversation
if found, otherwise create a new one titled with the (possibly truncated)
question.  Errors here are NOT caught locally — they propagate to the
handler's outer catch.  Returns the conversation id or the thrown error,
with the call trace. -/
def convPhaseT (env : Env) (uid : String) (reqCid : Option String)
    (question answer : String) : Except String String × List CallEv :=
  let lm := jsSubstring answer 0 100
  let step1 : Except String (Option String) × List CallEv :=
    match reqCid with
    | none => (.ok none, [])
    | some cid =>
      match env.findConv cid uid with
      | .error e => (.error e, [.findConv cid uid])
      | .ok false => (.ok none, [.findConv cid uid])
      | .ok true =>
        match env.saveConv cid lm with
        | .error e => (.error e, [.findConv cid uid, .saveConv cid lm])
        | .ok _ => (.ok (some cid), [.findConv cid uid, .saveConv cid lm])
  match step1 with
  | (.error e, tr) => (.error e, tr)
  | (.ok (some cid), tr) => (.ok cid, tr)
  | (.ok none, tr) =>
    let title :=
      if question.length > 50 then jsSubstring question 0 47 ++ "..."
      else question
    match env.createConv uid title lm with
    | .error e => (.error e, tr ++ [.createConv uid title lm])
    | .ok newId => (.ok newId, tr ++ [.createConv uid title lm])

/-- The chat-history block of `askQuestion`
(chatController_20260214171145.ts lines 63–80, identical in the other
snapshot): two `Chat.create` calls inside a `try` whose `catch` only
logs, so a failure never escapes; if the first create rejects, the second
is not attempted. -/
def chatPhaseT (env : Env) (uid cid question answer : String) :
    List CallEv :=
  match env.createChat uid cid "user" question with
  | .error _ => [.createChat uid cid "user" question]
  | .ok _ =>
    [.createChat uid cid "user" question,
     .createChat uid cid "model" answer]

namespace Controller171145

/-- `askQuestion` of `chatController_20260214171145.ts` (lines 15–110),
with its call trace: 401 without a user; 400 for a missing, empty or
whitespace-only question (no other validation); then
`ragService.processQuestion`, the conversation phase, the best-effort
chat-history phase, and a 200 response carrying the answer.  Anything
thrown reaches the outer catch and becomes a 500
`'Error processing your question'` response carrying `err.message`. -/
def askQuestionT (env : Env) (user : Option String) (body : AskBody) :
    HttpResp × List CallEv :=
  match user with
  | none => (resp401, [])
  | some uid =>
    match body.question with
    | none => (resp400 "Please provide a question", [])
    | some q =>
      if (jsTrim q).length = 0 then
        (resp400 "Please provide a question", [])
      else
        match processQuestionT env q with
        | (.error e, tr) =>
          (resp500 "Error processing your question" e, tr)
        | (.ok (answer, docs), tr) =>
          match convPhaseT env uid body.conversationId q answer with
          | (.error e, tr2) =>
            (resp500 "Error processing your question" e, tr ++ tr2)
          | (.ok cid, tr2) =>
            let tr3 := chatPhaseT env uid cid q answer
            ({ status := 200, success := true, message := none,
               answer := some answer, sources := some docs,
               conversationId := some cid, errorMsg := none },
             tr ++ tr2 ++ tr3)

def askQuestion (env : Env) (user : Option String) (body : AskBody) :
    HttpResp :=
  (askQuestionT env user body).1

end Controller171145

namespace Controller100540

/-- `generateEmbedding` of `chatController_20260214100540.ts`
(lines 33–68), with its call trace: always posts (no key guard), returns
the first embedding when the response has the expected shape, `null`
otherwise (the thrown `'Invalid response from Voyage AI'` is caught
locally). -/
def generateEmbeddingT (env : Env) (text : String) :
    Option (List ℚ) × List CallEv :=
  match env.voyageResponse text with
  | .error _ => (none, [.embed text])
  | .ok r =>
    match r.data with
    | [] => (none, [.embed text])
    | d :: _ => (some d.embedding, [.embed text])

/-- `findRelevantDocumentsByEmbedding` (lines 76–96): vector search,
with any rejection converted to the empty list; no text fallback. -/
def findRelevantDocumentsByEmbeddingT (env : Env)
    (queryEmbedding : List ℚ) (limit : Nat) : List RDoc × List CallEv :=
  match env.vectorSearch queryEmbedding limit with
  | .ok rs => (rs, [.vsearch queryEmbedding limit])
  | .error _ => ([], [.vsearch queryEmbedding limit])

/-- `findRelevantDocuments` (lines 104–122): lexical text search, with
any rejection converted to the empty list. -/
def findRelevantDocumentsT (env : Env) (query : String) (limit : Nat) :
    List RDoc × List CallEv :=
  match env.findSimilar query limit with
  | .ok ds => (ds.map Doc.toRDoc, [.tsearch query limit])
  | .error _ => ([], [.tsearch query limit])

/-- The system instruction of `generateAIResponse` (lines 148–155). -/
def systemInstructionText : String :=
  "You are ዘብ AI, the intelligent safety assistant for the ASTU (Addis Science and Technology University) Smart Campus Safety Platform. \n\nYour goals:\n1. Provide clear, accurate safety information based ONLY on the provided context.\n2. Guide students to correct resources: security contacts, health services, or incident reporting forms.\n3. If an immediate threat is described, prioritize emergency contact instructions.\n4. Maintain a professional, supportive, and concise tone.\n5. If the context doesn\x27t have the answer, gracefully direct the user to campus security."

/-- `contextText` of `generateAIResponse` (lines 160–170): empty when no
context, otherwise a header followed by one numbered entry per document
with the optional relevance info and a 500-character excerpt. -/
def buildContextText540 (context : List RDoc) : String :=
  if context.length > 0 then
    "\n\nRelevant Information from Campus Safety Documents:\n" ++
      String.join (context.enum.map (fun p =>
        "\n" ++ toString (p.1 + 1) ++ ". " ++ p.2.title
          ++ relevanceInfo p.2 ++ "\n" ++ truncateText p.2.content 500
          ++ "\n"))
  else ""

/-- The structured Gemini call of `generateAIResponse` (lines 173–186),
modelled as the concatenation of the system instruction and the two
prompt parts. -/
def buildPrompt540 (question : String) (context : List RDoc) : String :=
  let contextText := buildContextText540 context
  systemInstructionText
    ++ (if contextText = "" then "" else "\n\nCONTEXT:\n" ++ contextText)
    ++ ("\n\nSTUDENT QUESTION: " ++ question)

/-- `generateAIResponse` (lines 130–201), with its call trace: a missing
Gemini key throws before the provider call; any error is caught and
turned into a `(DEBUG MODE)` fallback string embedding `err.message`, so
this function never rejects. -/
def generateAIResponseT (env : Env) (question : String)
    (context : List RDoc) : String × List CallEv :=
  if env.geminiKey = false then
    ("(DEBUG MODE) Error generating response: GEMINI_API_KEY is missing from environment variables. Please check backend logs for details.",
     [])
  else
    let prompt := buildPrompt540 question context
    match env.gemini prompt with
    | .ok t => (t, [.generate prompt])
    | .error m =>
      ("(DEBUG MODE) Error generating response: " ++ m
        ++ ". Please check backend logs for details.", [.generate prompt])

/-- Step 2 of `askQuestion` (lines 243–251): vector retrieval when a
nonempty embedding exists, otherwise text retrieval — never a fallback
from an empty or failed vector result to text search. -/
def retrieveT (env : Env) (q : String) (emb : Option (List ℚ)) :
    List RDoc × List CallEv :=
  match emb with
  | some e =>
    if e.length > 0 then findRelevantDocumentsByEmbeddingT env e 3
    else findRelevantDocumentsT env q 3
  | none => findRelevantDocumentsT env q 3

/-- `askQuestion` of `chatController_20260214100540.ts` (lines 208–332),
with its call trace: 401 without a user; 400 for a missing, empty or
whitespace-only question; 400 for a question longer than 1000
characters; then embedding, retrieval (vector when an embedding exists,
otherwise text search — no fallback from an empty vector result),
generation (never throws), the conversation phase, the best-effort
chat-history phase, and a 200 response. -/
def askQuestionT (env : Env) (user : Option String) (body : AskBody) :
    HttpResp × List CallEv :=
  match user with
  | none => (resp401, [])
  | some uid =>
    match body.question with
    | none => (resp400 "Please provide a question", [])
    | some q =>
      if (jsTrim q).length = 0 then
        (resp400 "Please provide a question", [])
      else if q.length > 1000 then
        (resp400 "Question is too long (max 1000 characters)", [])
      else
        let r1 := generateEmbeddingT env q
        let r2 := retrieveT env q r1.1
        let r3 := generateAIResponseT env q r2.1
        match convPhaseT env uid body.conversationId q r3.1 with
        | (.error e, tr2) =>
          (resp500 "Error processing your question" e,
           r1.2 ++ r2.2 ++ r3.2 ++ tr2)
        | (.ok cid, tr2) =>
          let tr3 := chatPhaseT env uid cid q r3.1
          ({ status := 200, success := true, message := none,
             answer := some r3.1, sources := some r2.1,
             conversationId := some cid, errorMsg := none },
           r1.2 ++ r2.2 ++ r3.2 ++ tr2 ++ tr3)

def askQuestion (env : Env) (user : Option String) (body : AskBody) :
    HttpResp :=
  (askQuestionT env user body).1

end Controller100540

/-! ## Text processing (`utils/textProcessing.ts`, modelled from the spec)

`utils/textProcessing.ts` is not in the source tree; only its callers
are.  `cleanText` and `chunkText` below are modelled from the
specification (§4.1 Text Normalizer, §4.2 Chunker). -/

/-- Collapse every maximal run of whitespace to a single space.
`prevWs` records whether the previously kept character position ended in
whitespace (starting `true` drops leading whitespace). -/
def collapseWsGo : List Char → Bool → List Char
  | [], _ => []
  | c :: rest, prevWs =>
    if c.isWhitespace then
      if prevWs then collapseWsGo rest true
      else ' ' :: collapseWsGo rest true
    else c :: collapseWsGo rest false

/-- Modelled from the spec: `cleanText` from `utils/textProcessing.ts`.
"cleans raw extracted text … output text with collapsed whitespace,
normalized line breaks, and invalid/control characters stripped":
control characters are dropped, every whitespace run becomes one space,
and leading/trailing whitespace is removed. -/
def cleanText (s : String) : String :=
  let noCtrl := s.data.filter
    (fun c => ¬ (c.toNat < 32 ∧ ¬ c.isWhitespace))
  String.mk
    (((collapseWsGo noCtrl true).reverse.dropWhile
      Char.isWhitespace).reverse)

/-- One chunk produced by the chunker: its text, start offset, and
0-based sequence index (spec §4.2). -/
structure TextChunk where
  text : String
  start : Nat
  index : Nat
deriving DecidableEq, Repr

/-- Largest whitespace position in `[start, stop)`, if any. -/
def lastWsIn (chars : List Char) (start stop : Nat) : Option Nat :=
  (List.range (stop - start)).foldl
    (fun acc k =>
      let j := start + k
      if (chars.getD j 'x').isWhitespace then some j else acc)
    none

/-- End position of the chunk starting at `pos`: `pos + size` capped at
the text length; when that boundary lands mid-word, backed off to the
nearest preceding whitespace position after `pos` (spec §4.2), falling
back to the hard cut when none exists. -/
def chunkEnd (chars : List Char) (size pos : Nat) : Nat :=
  let stop := min (pos + size) chars.length
  if stop < chars.length ∧ ¬ (chars.getD stop 'x').isWhitespace then
    match lastWsIn chars (pos + 1) stop with
    | some j => j
    | none => stop
  else stop

/-- Modelled from the spec: the greedy accumulation loop of `chunkText`
(spec §4.2): take up to `size` characters, back off to a whitespace
boundary, then restart `overlap` characters before the chunk end
(always advancing by at least one character so the sequence is finite).
Empty remaining input produces no further chunks. -/
def chunkGo (chars : List Char) (size overlap pos idx : Nat) :
    List TextChunk :=
  if h : pos < chars.length then
    let e := chunkEnd chars size pos
    let c : TextChunk :=
      ⟨String.mk ((chars.drop pos).take (e - pos)), pos, idx⟩
    if e < chars.length then
      c :: chunkGo chars size overlap (max (e - overlap) (pos + 1)) (idx + 1)
    else [c]
  else []
termination_by chars.length - pos
decreasing_by
  have h1 : pos + 1 ≤ max (chunkEnd chars size pos - overlap) (pos + 1) :=
    le_max_right _ _
  omega

/-- Modelled from the spec: `chunkText(text, size, overlap)` from
`utils/textProcessing.ts` (spec §4.2): an ordered finite sequence of
chunks; input no longer than `size` yields exactly one chunk; empty
input yields none. -/
def chunkText (text : String) (size overlap : Nat) : List TextChunk :=
  chunkGo text.data size overlap 0 0

/-! ## Document store records and ingestion
(`chatController_20260214171145.ts`) -/

/-- A document record as created by `DocumentModel.create` in
`processAndSaveDocument` / deleted by `deleteDocument`.  MongoDB
ObjectIds are modelled as naturals assigned by the store. -/
structure StoredDoc where
  id : Nat
  title : String
  content : String
  category : String
  tags : List String
  embedding : List ℚ
  uploadedBy : String
  isPublic : Bool
  isChunk : Bool
  parentDocumentId : Option Nat
  chunkIndex : Option Nat
  chunkCount : Option Nat
deriving DecidableEq, Repr

/-- `processAndSaveDocument` (chatController_20260214171145.ts lines
120–212, identical in the 20260214100540 snapshot): clean the content;
if the cleaned length exceeds 2000 characters, chunk it with
`chunkText(cleanedContent, 1000, 200)` and create an embedding-less
parent record plus one chunk record per chunk, each chunk embedded from
its own text (`embedding || []` stores the empty list when the provider
returned `null`); otherwise create a single record embedded from the
cleaned content.  `nextId` models the store-assigned id of the first
created record; subsequent records get the following ids.  Returns the
created records, parent first. -/
def processAndSaveDocument (env : Env) (nextId : Nat)
    (title content userId category : String) (tags : List String) :
    List StoredDoc :=
  let cleanedContent := cleanText content
  let cat := if category = "" then "other" else category
  if cleanedContent.length > 2000 then
    let chunks := chunkText cleanedContent 1000 200
    let parentDoc : StoredDoc :=
      { id := nextId, title := title, content := cleanedContent,
        category := cat, tags := tags, embedding := [],
        uploadedBy := userId, isPublic := true, isChunk := false,
        parentDocumentId := none, chunkIndex := none,
        chunkCount := some chunks.length }
    let chunkDocs := chunks.enum.map (fun p =>
      ({ id := nextId + 1 + p.1,
         title := title ++ " (Chunk " ++ toString (p.1 + 1) ++ "/"
           ++ toString chunks.length ++ ")",
         content := p.2.text, category := cat, tags := tags,
         embedding := (generateEmbedding env p.2.text).getD [],
         uploadedBy := userId, isPublic := true, isChunk := true,
         parentDocumentId := some nextId, chunkIndex := some p.2.index,
         chunkCount := some chunks.length } : StoredDoc))
    parentDoc :: chunkDocs
  else
    [{ id := nextId, title := title, content := cleanedContent,
       category := cat, tags := tags,
       embedding := (generateEmbedding env cleanedContent).getD [],
       uploadedBy := userId, isPublic := true, isChunk := false,
       parentDocumentId := none, chunkIndex := none,
       chunkCount := none }]

/-- JavaScript truthiness of `document.chunkCount && document.chunkCount > 0`
(chatController_20260214171145.ts line 412): a missing count and a count
of 0 are both falsy. -/
def chunkCountTruthy (d : StoredDoc) : Bool :=
  match d.chunkCount with
  | some c => decide (0 < c)
  | none => false

/-- `deleteDocument` (chatController_20260214171145.ts lines 386–434),
acting on a store modelled as a list of records: 404 when no record has
the id; otherwise, when the record is a non-chunk with a truthy positive
`chunkCount`, `deleteMany({parentDocumentId: id})` removes every record
referencing it as parent, and then `document.deleteOne()` removes the
record itself.  Returns the new store and the HTTP status. -/
def deleteDocument (store : List StoredDoc) (docId : Nat) :
    List StoredDoc × Nat :=
  match store.find? (fun d => d.id == docId) with
  | none => (store, 404)
  | some d =>
    let s1 :=
      if d.isChunk = false ∧ chunkCountTruthy d then
        store.filter (fun r => r.parentDocumentId ≠ some docId)
      else store
    (s1.eraseP (fun r => r.id == docId), 200)

/-- The store query for the chunks of a parent
(`DocumentModel.deleteMany`/`find` filter `{parentDocumentId: id}`). -/
def chunksOf (store : List StoredDoc) (pid : Nat) : List StoredDoc :=
  store.filter (fun r => r.parentDocumentId = some pid)

/-! ## Concrete fixtures used by witnesses and counterexamples -/

/-- Every provider and store call fails; no API keys configured. -/
def envAllDown : Env :=
  { voyageKey := false, geminiKey := false,
    voyageResponse := fun _ => .error "ECONNREFUSED",
    vectorSearch := fun _ _ => .error "index down",
    findSimilar := fun _ _ => .error "text index down",
    gemini := fun _ => .error "ECONNREFUSED",
    findConv := fun _ _ => .error "db down",
    saveConv := fun _ _ => .error "db down",
    createConv := fun _ _ _ => .error "db down",
    createChat := fun _ _ _ _ => .error "db down" }

/-- Every call succeeds: the embedding provider returns a 1-entry vector,
both searches return no documents, generation answers `"Answer"`, the
conversation store works. -/
def envAllOk : Env :=
  { voyageKey := true, geminiKey := true,
    voyageResponse := fun _ => .ok ⟨[⟨[1]⟩]⟩,
    vectorSearch := fun _ _ => .ok [],
    findSimilar := fun _ _ => .ok [],
    gemini := fun _ => .ok "Answer",
    findConv := fun _ _ => .ok false,
    saveConv := fun _ _ => .ok (),
    createConv := fun _ _ _ => .ok "c1",
    createChat := fun _ _ _ _ => .ok () }

/-- As `envAllOk`, but the embedding provider returns a 3-dimensional
vector — not the contract dimensionality 1024. -/
def envDim3 : Env :=
  { envAllOk with voyageResponse := fun _ => .ok ⟨[⟨[1, 2, 3]⟩]⟩ }

/-- As `envAllOk`, but the generative provider rejects with a quota
error. -/
def envGeminiDown : Env :=
  { envAllOk with gemini := fun _ => .error "429 RESOURCE_EXHAUSTED" }

/-- As `envAllOk`, but `Conversation.create` rejects. -/
def envConvDown : Env :=
  { envAllOk with createConv := fun _ _ _ => .error "db write failed" }

/-- As `envAllOk`, but both `Chat.create` calls reject. -/
def envChatDown : Env :=
  { envAllOk with createChat := fun _ _ _ _ => .error "db write failed" }

/-- A 1001-character question (over the 1000-character maximum). -/
def qLong : String := String.mk (List.replicate 1001 'a')

/-- A 2001-character document body (over the 2000-character chunking
threshold). -/
def bigText : String := String.mk (List.replicate 2001 'a')

/-- Two retrieved documents identical except for their category. -/
def docSecurity : RDoc :=
  { title := "Fire drill", content := "Exit via stairs.",
    category := "security", isChunk := false, chunkIndex := none,
    similarity := none }

def docHealth : RDoc :=
  { title := "Fire drill", content := "Exit via stairs.",
    category := "health", isChunk := false, chunkIndex := none,
    similarity := none }

/-- A parent document with two chunks, as ingestion creates them. -/
def storeW : List StoredDoc :=
  [{ id := 1, title := "Policy", content := "long text",
     category := "other", tags := [], embedding := [],
     uploadedBy := "u", isPublic := true, isChunk := false,
     parentDocumentId := none, chunkIndex := none,
     chunkCount := some 2 },
   { id := 2, title := "Policy (Chunk 1/2)", content := "long",
     category := "other", tags := [], embedding := [1],
     uploadedBy := "u", isPublic := true, isChunk := true,
     parentDocumentId := some 1, chunkIndex := some 0,
     chunkCount := some 2 },
   { id := 3, title := "Policy (Chunk 2/2)", content := "text",
     category := "other", tags := [], embedding := [2],
     uploadedBy := "u", isPublic := true, isChunk := true,
     parentDocumentId := some 1, chunkIndex := some 1,
     chunkCount := some 2 }]

/-! ## Helper lemmas on the string model -/

theorem strLenMk (l : List Char) : (String.mk l).length = l.length := rfl

theorem strAppendMk (a b : List Char) :
    (String.mk a ++ String.mk b) = String.mk (a ++ b) := rfl

theorem strLenAppend (a b : String) :
    (a ++ b).length = a.length + b.length := by
  cases a with
  | mk la => cases b with
    | mk lb => rw [strAppendMk]; simp only [strLenMk, List.length_append]

theorem strLenData (s : String) : s.length = s.data.length := rfl

/-- The title the controllers give a newly created conversation never
exceeds 50 characters. -/
theorem deriveTitle_le_50 (q : String) :
    (if q.length > 50 then jsSubstring q 0 47 ++ "..." else q).length
      ≤ 50 := by
  split
  · next h =>
    have h3 : ("..." : String).length = 3 := rfl
    rw [strLenAppend, h3]
    simp only [jsSubstring, List.drop_zero, strLenMk, List.length_take]
    rw [strLenData] at h
    omega
  · next h => omega

/-! ## C1: strict vector-to-text fallback in `searchDocuments` -/

/-- **C1.** For every query: if embedding generation failed (no vector,
or an empty vector) or vector search rejects or returns zero results,
`searchDocuments` returns exactly the lexical text-search results, which
carry no similarity score; the two paths are never merged (the result is
either the vector result or the text result); and when the text path
also rejects, the result is the empty list — `searchDocuments` itself is
total, so no exception escapes. -/
theorem searchDocuments_strict_fallback (env : Env) (q : String)
    (emb : Option (List ℚ)) (lim : Nat) :
    ((emb = none ∨ emb = some []) →
      searchDocuments env q emb lim = textSearchFallback env q lim)
  ∧ (∀ e, emb = some e → e ≠ [] →
      ((∃ m, env.vectorSearch e lim = .error m) ∨
        env.vectorSearch e lim = .ok []) →
      searchDocuments env q emb lim = textSearchFallback env q lim)
  ∧ (∀ r ∈ textSearchFallback env q lim, r.similarity = none)
  ∧ (∀ m', env.findSimilar q lim = .error m' →
      (emb = none ∨ emb = some [] ∨
        (∃ e m, emb = some e ∧ env.vectorSearch e lim = .error m) ∨
        (∃ e, emb = some e ∧ env.vectorSearch e lim = .ok [])) →
      searchDocuments env q emb lim = [])
  ∧ ((∃ e rs, emb = some e ∧ env.vectorSearch e lim = .ok rs ∧
        searchDocuments env q emb lim = rs)
      ∨ searchDocuments env q emb lim = textSearchFallback env q lim) := by
  refine ⟨?_, ?_, ?_, ?_, ?_⟩
  · rintro (rfl | rfl) <;>
      simp [searchDocuments, searchDocumentsT]
  · rintro e rfl he (⟨m, hm⟩ | hm) <;>
      simp [searchDocuments, searchDocumentsT, hm,
        List.length_pos.mpr he]
  · intro r hr
    unfold textSearchFallback at hr
    rcases h : env.findSimilar q lim with m | ds <;> rw [h] at hr
    · simp at hr
    · simp only [List.mem_map] at hr
      obtain ⟨d, _, rfl⟩ := hr
      rfl
  · rintro m' hm' (rfl | rfl | ⟨e, m, rfl, hm⟩ | ⟨e, rfl, hm⟩)
    · simp [searchDocuments, searchDocumentsT, textSearchFallback, hm']
    · simp [searchDocuments, searchDocumentsT, textSearchFallback, hm']
    · by_cases he : e = [] <;>
        simp_all [searchDocuments, searchDocumentsT, textSearchFallback,
          List.length_pos]
    · by_cases he : e = [] <;>
        simp_all [searchDocuments, searchDocumentsT, textSearchFallback,
          List.length_pos]
  · rcases emb with _ | e
    · right; simp [searchDocuments, searchDocumentsT]
    · by_cases he : e = []
      · subst he; right; simp [searchDocuments, searchDocumentsT]
      · rcases h : env.vectorSearch e lim with m | rs
        · right
          simp [searchDocuments, searchDocumentsT, h,
            List.length_pos.mpr he]
        · by_cases hrs : rs = []
          · subst hrs; right
            simp [searchDocuments, searchDocumentsT, h,
              List.length_pos.mpr he]
          · left
            exact ⟨e, rs, rfl, h, by
              simp [searchDocuments, searchDocumentsT, h,
                List.length_pos.mpr he, List.length_pos.mpr hrs]⟩

/-- Witness for C1 at a concrete input: with no embedding available and
the text index also rejecting, `searchDocuments` returns the empty
list. -/
theorem searchDocuments_strict_fallback_witness :
    envAllDown.findSimilar "q" 3 = .error "text index down" ∧
    searchDocuments envAllDown "q" none 3 = [] :=
  ⟨rfl,
    (searchDocuments_strict_fallback envAllDown "q" none 3).2.2.2.1
      "text index down" rfl (Or.inl rfl)⟩

/-! ## C2: embedding dimensionality is NOT validated

The claim says a provider vector whose length differs from the contract
dimensionality (1024) is rejected as a failure and never accepted into
the index.  Neither `RAGService.generateEmbedding` nor
`processAndSaveDocument` inspects the vector's length: whatever vector
the provider returns is accepted and stored. -/

/-- **C2 counterexample.** The provider returns a 3-dimensional vector;
`generateEmbedding` accepts it unchanged, and ingesting a small document
stores exactly that vector in the index. -/
theorem short_vector_accepted :
    generateEmbedding envDim3 "hello" = some [1, 2, 3]
  ∧ ([1, 2, 3] : List ℚ).length ≠ 1024
  ∧ (processAndSaveDocument envDim3 1 "T" "hello" "u" "safety" []).map
      StoredDoc.embedding = [[1, 2, 3]] := by
  refine ⟨rfl, by decide, by decide⟩

/-- The below-threshold branch of `processAndSaveDocument`: a single
record is created, embedded from the cleaned content. -/
theorem processAndSaveDocument_small_eq (env : Env) (nextId : Nat)
    (title content userId category : String) (tags : List String)
    (h : ¬ (cleanText content).length > 2000) :
    processAndSaveDocument env nextId title content userId category tags
      = [{ id := nextId, title := title, content := cleanText content,
           category := if category = "" then "other" else category,
           tags := tags,
           embedding := (generateEmbedding env (cleanText content)).getD [],
           uploadedBy := userId, isPublic := true, isChunk := false,
           parentDocumentId := none, chunkIndex := none,
           chunkCount := none }] := by
  simp only [processAndSaveDocument]
  rw [if_neg h]

/-- The above-threshold branch of `processAndSaveDocument`: a parent
record without embedding followed by one record per chunk, each embedded
from its own chunk text. -/
theorem processAndSaveDocument_large_eq (env : Env) (nextId : Nat)
    (title content userId category : String) (tags : List String)
    (h : (cleanText content).length > 2000) :
    processAndSaveDocument env nextId title content userId category tags
      = { id := nextId, title := title, content := cleanText content,
          category := if category = "" then "other" else category,
          tags := tags, embedding := [], uploadedBy := userId,
          isPublic := true, isChunk := false, parentDocumentId := none,
          chunkIndex := none,
          chunkCount :=
            some (chunkText (cleanText content) 1000 200).length }
        :: (chunkText (cleanText content) 1000 200).enum.map (fun p =>
          ({ id := nextId + 1 + p.1,
             title := title ++ " (Chunk " ++ toString (p.1 + 1) ++ "/"
               ++ toString (chunkText (cleanText content) 1000 200).length
               ++ ")",
             content := p.2.text,
             category := if category = "" then "other" else category,
             tags := tags,
             embedding := (generateEmbedding env p.2.text).getD [],
             uploadedBy := userId, isPublic := true, isChunk := true,
             parentDocumentId := some nextId,
             chunkIndex := some p.2.index,
             chunkCount :=
               some (chunkText (cleanText content) 1000 200).length }
            : StoredDoc)) := by
  simp only [processAndSaveDocument]
  rw [if_pos h]

/-- **C2 (amended).** No dimensionality check exists: for every provider
response, `generateEmbedding` returns the first returned vector
unchanged, whatever its length, and ingestion of a small document stores
that vector in the created record. -/
theorem embedding_accepted_without_dimension_check (env : Env)
    (text : String) (v : List ℚ) (rest : List VoyageData)
    (hkey : env.voyageKey = true)
    (hresp : env.voyageResponse text = .ok ⟨⟨v⟩ :: rest⟩) :
    generateEmbedding env text = some v
  ∧ (cleanText text = text → text.length ≤ 2000 →
      ∃ d, processAndSaveDocument env 1 "T" text "u" "safety" [] = [d]
        ∧ d.embedding = v) := by
  have hg : generateEmbedding env text = some v := by
    simp [generateEmbedding, generateEmbeddingT, hkey, hresp]
  refine ⟨hg, fun hclean hlen => ?_⟩
  rw [processAndSaveDocument_small_eq env 1 "T" text "u" "safety" []]
  · exact ⟨_, rfl, by simp [hclean, hg]⟩
  · rw [hclean]; omega

/-- Witness for the amended C2 at a concrete input. -/
theorem embedding_accepted_without_dimension_check_witness :
    envDim3.voyageKey = true
  ∧ cleanText "hello" = "hello"
  ∧ generateEmbedding envDim3 "hello" = some [1, 2, 3] := by
  refine ⟨rfl, by decide, ?_⟩
  exact (embedding_accepted_without_dimension_check envDim3 "hello"
    [1, 2, 3] [] rfl rfl).1

/-! ## C3: generation-provider errors surface as a 500 error payload

The claim says provider errors must not propagate as pipeline-fatal
errors and the user gets a clearly-labeled degraded answer instead.  In
the code, `RAGService.generateAnswer` throws the wrapped error
`'Failed to generate response from AI service.'` and `askQuestion`'s
outer catch turns it into an HTTP 500 `{success: false}` payload — no
degraded answer is returned. -/

/-- **C3 counterexample.** With the generative provider rejecting
(quota), the ask request fails with a 500 error payload instead of
succeeding with a degraded answer. -/
theorem generation_failure_returns_error_payload :
    envGeminiDown.gemini (buildPrompt "help" []) =
      .error "429 RESOURCE_EXHAUSTED"
  ∧ Controller171145.askQuestion envGeminiDown (some "u")
      ⟨some "help", none⟩
      = resp500 "Error processing your question"
          "Failed to generate response from AI service."
  ∧ (Controller171145.askQuestion envGeminiDown (some "u")
      ⟨some "help", none⟩).success = false :=
  ⟨rfl, by decide, by decide⟩

/-- **C3 (amended).** For every ask request whose generation call
rejects (or returns an empty/whitespace-only text), the pipeline IS
fatal: `generateAnswer` throws the stable wrapped message
`'Failed to generate response from AI service.'` (discarding the raw
provider error) and `askQuestion` answers HTTP 500
`{success: false, message: 'Error processing your question'}` carrying
that wrapped message — an error payload, not a degraded answer; only
the provider's raw error text is kept out of the response. -/
theorem generation_failure_surfaces_as_500 (env : Env) (uid q : String)
    (rc : Option String)
    (hq : (jsTrim q).length ≠ 0)
    (hfail :
      (∃ m, env.gemini (buildPrompt q (searchDocuments env q
        (generateEmbedding env q) 3)) = .error m) ∨
      (∃ t, env.gemini (buildPrompt q (searchDocuments env q
        (generateEmbedding env q) 3)) = .ok t ∧ (jsTrim t).length = 0)) :
    Controller171145.askQuestion env (some uid) ⟨some q, rc⟩
      = resp500 "Error processing your question"
          "Failed to generate response from AI service." := by
  have hga : (generateAnswerT env q (searchDocuments env q
      (generateEmbedding env q) 3)).1
      = .error "Failed to generate response from AI service." := by
    rcases hfail with ⟨m, hm⟩ | ⟨t, ht, htr⟩
    · simp [generateAnswerT, hm]
    · simp [generateAnswerT, ht, htr]
  have hpq : (processQuestionT env q).1
      = Except.error "Failed to generate response from AI service." := by
    show ((generateAnswerT env q (searchDocuments env q
      (generateEmbedding env q) 3)).1.map
        (fun a => (a, searchDocuments env q
          (generateEmbedding env q) 3))) = _
    rw [hga]
    rfl
  rcases hp : processQuestionT env q with ⟨res, tr⟩
  rw [hp] at hpq
  simp only at hpq
  subst hpq
  simp [Controller171145.askQuestion, Controller171145.askQuestionT,
    hp, hq]

/-- Witness for the amended C3 at a concrete input. -/
theorem generation_failure_surfaces_as_500_witness :
    (jsTrim "help").length ≠ 0
  ∧ Controller171145.askQuestion envGeminiDown (some "u")
      ⟨some "help", none⟩
      = resp500 "Error processing your question"
          "Failed to generate response from AI service." :=
  ⟨by decide,
    generation_failure_surfaces_as_500 envGeminiDown "u" "help" none
      (by decide) (Or.inl ⟨"429 RESOURCE_EXHAUSTED", rfl⟩)⟩

/-! ## C4: validation before network calls

Both controller snapshots reject a missing/empty/whitespace-only
question with HTTP 400 before any outbound call.  The maximum-length
check (1000 characters) exists only in the 20260214100540 snapshot; the
latest snapshot (20260214171145) has no length check and sends an
oversized question straight to the embedding provider. -/

theorem dropWhile_ws_replicate_a (n : Nat) :
    List.dropWhile Char.isWhitespace (List.replicate n 'a')
      = List.replicate n 'a' := by
  cases n with
  | zero => rfl
  | succ k =>
    rw [List.replicate_succ, List.dropWhile_cons]
    simp only [show 'a'.isWhitespace = false from rfl]
    simp

theorem jsTrim_qLong : jsTrim qLong = qLong := by
  unfold jsTrim qLong
  rw [show (String.mk (List.replicate 1001 'a')).data
        = List.replicate 1001 'a' from rfl,
    dropWhile_ws_replicate_a, List.reverse_replicate,
    dropWhile_ws_replicate_a, List.reverse_replicate]

theorem qLong_length : qLong.length = 1001 := by
  rw [qLong, strLenMk, List.length_replicate]

/-- **C4 (amended).** An empty or whitespace-only question is rejected
with HTTP 400 before any outbound call (empty trace) in both controller
snapshots; the oversized-question rejection (over 1000 characters,
again before any outbound call) exists only in the 20260214100540
snapshot. -/
theorem question_validation (env : Env) (uid : String)
    (rc : Option String) (qOpt : Option String) :
    ((qOpt = none ∨ ∃ q, qOpt = some q ∧ (jsTrim q).length = 0) →
      Controller171145.askQuestionT env (some uid) ⟨qOpt, rc⟩
        = (resp400 "Please provide a question", [])
      ∧ Controller100540.askQuestionT env (some uid) ⟨qOpt, rc⟩
        = (resp400 "Please provide a question", []))
  ∧ (∀ q, qOpt = some q → (jsTrim q).length ≠ 0 → q.length > 1000 →
      Controller100540.askQuestionT env (some uid) ⟨qOpt, rc⟩
        = (resp400 "Question is too long (max 1000 characters)", [])) := by
  constructor
  · rintro (rfl | ⟨q, rfl, hq⟩)
    · exact ⟨rfl, rfl⟩
    · constructor <;>
        simp [Controller171145.askQuestionT,
          Controller100540.askQuestionT, hq]
  · rintro q rfl hq hlen
    simp [Controller100540.askQuestionT, hq, hlen]

/-- Witness for the amended C4 at a concrete input. -/
theorem question_validation_witness :
    (jsTrim " ").length = 0
  ∧ Controller171145.askQuestionT envAllOk (some "u") ⟨some " ", none⟩
      = (resp400 "Please provide a question", []) :=
  ⟨by decide, ((question_validation envAllOk "u" none (some " ")).1
      (Or.inr ⟨" ", rfl, by decide⟩)).1⟩

/-- **C4 counterexample.** A 1001-character question is NOT rejected by
the latest controller: the very first thing it does is the embedding
network call, and the request completes with HTTP 200. -/
theorem oversized_question_not_rejected :
    qLong.length > 1000
  ∧ ((Controller171145.askQuestionT envAllOk (some "u")
      ⟨some qLong, none⟩).2).head? = some (CallEv.embed qLong)
  ∧ (Controller171145.askQuestion envAllOk (some "u")
      ⟨some qLong, none⟩).status = 200 := by
  have h1 : qLong.length = 1001 := qLong_length
  have h2 : jsTrim qLong = qLong := jsTrim_qLong
  have h3 : (jsTrim "Answer").length = 6 := rfl
  refine ⟨by omega, ?_, ?_⟩ <;>
    simp [Controller171145.askQuestion, Controller171145.askQuestionT,
      processQuestionT, generateEmbeddingT, searchDocumentsT,
      textSearchFallback, generateAnswerT, convPhaseT, chatPhaseT,
      envAllOk, h1, h2, h3, Except.map]

/-! ## C5 / C6: ingestion chunking policy and embedding placement -/

theorem collapseWsGo_no_ws (l : List Char) (b : Bool)
    (h : ∀ c ∈ l, c.isWhitespace = false) : collapseWsGo l b = l := by
  induction l generalizing b with
  | nil => rfl
  | cons c rest ih =>
    have hc := h c (List.mem_cons_self c rest)
    simp only [collapseWsGo, hc, Bool.false_eq_true, if_false,
      List.cons.injEq, true_and]
    exact ih false (fun x hx => h x (List.mem_cons_of_mem _ hx))

theorem cleanText_replicate_a (n : Nat) :
    cleanText (String.mk (List.replicate n 'a'))
      = String.mk (List.replicate n 'a') := by
  unfold cleanText
  rw [show (String.mk (List.replicate n 'a')).data
        = List.replicate n 'a' from rfl]
  rw [show ((List.replicate n 'a').filter
      fun c => decide ¬(c.toNat < 32 ∧ ¬c.isWhitespace = true))
      = List.replicate n 'a' by
    apply List.filter_eq_self.mpr
    intro c hc
    have hca : c = 'a' := List.eq_of_mem_replicate hc
    subst hca
    decide]
  simp only []
  rw [collapseWsGo_no_ws _ _ (fun c hc => by
    have hca : c = 'a' := List.eq_of_mem_replicate hc
    subst hca
    rfl)]
  rw [List.reverse_replicate, dropWhile_ws_replicate_a,
    List.reverse_replicate]

/-- **C5.** For every ingested document, after normalization: a cleaned
body longer than 2000 characters is chunked with
`chunkText(·, 1000, 200)` — one parent record (carrying the chunk count)
plus exactly one chunk record per chunk — while a cleaned body of at
most 2000 characters is stored as a single non-chunk record embedded
from the cleaned content, with no chunk records created. -/
theorem processAndSaveDocument_chunking_policy (env : Env)
    (nextId : Nat) (title content userId category : String)
    (tags : List String) :
    ((cleanText content).length > 2000 →
      ∃ parent chunkRecs,
        processAndSaveDocument env nextId title content userId category
          tags = parent :: chunkRecs
        ∧ parent.isChunk = false
        ∧ chunkRecs.length
            = (chunkText (cleanText content) 1000 200).length
        ∧ parent.chunkCount
            = some (chunkText (cleanText content) 1000 200).length
        ∧ ∀ r ∈ chunkRecs,
            r.isChunk = true ∧ r.parentDocumentId = some nextId)
  ∧ ((cleanText content).length ≤ 2000 →
      ∃ d,
        processAndSaveDocument env nextId title content userId category
          tags = [d]
        ∧ d.isChunk = false ∧ d.content = cleanText content
        ∧ d.embedding = (generateEmbedding env (cleanText content)).getD []
        ∧ d.chunkCount = none) := by
  constructor
  · intro h
    rw [processAndSaveDocument_large_eq env nextId title content userId
      category tags h]
    refine ⟨_, _, rfl, rfl, by simp, rfl, ?_⟩
    intro r hr
    simp only [List.mem_map] at hr
    obtain ⟨p, _, rfl⟩ := hr
    exact ⟨rfl, rfl⟩
  · intro h
    rw [processAndSaveDocument_small_eq env nextId title content userId
      category tags (by omega)]
    exact ⟨_, rfl, rfl, rfl, rfl, rfl⟩

/-- Witness for C5 at concrete inputs: a 2001-character body is chunked,
a 2-character body is stored as a single record. -/
theorem processAndSaveDocument_chunking_policy_witness :
    ((cleanText bigText).length > 2000
      ∧ ∃ parent chunkRecs,
          processAndSaveDocument envAllOk 1 "T" bigText "u" "safety" []
            = parent :: chunkRecs
          ∧ parent.isChunk = false
          ∧ chunkRecs.length
              = (chunkText (cleanText bigText) 1000 200).length
          ∧ parent.chunkCount
              = some (chunkText (cleanText bigText) 1000 200).length
          ∧ ∀ r ∈ chunkRecs,
              r.isChunk = true ∧ r.parentDocumentId = some 1)
  ∧ ((cleanText "hi").length ≤ 2000
      ∧ ∃ d,
          processAndSaveDocument envAllOk 2 "T" "hi" "u" "safety" []
            = [d]
          ∧ d.isChunk = false ∧ d.content = cleanText "hi"
          ∧ d.embedding
              = (generateEmbedding envAllOk (cleanText "hi")).getD []
          ∧ d.chunkCount = none) := by
  have hbig : (cleanText bigText).length > 2000 := by
    rw [show bigText = String.mk (List.replicate 2001 'a') from rfl,
      cleanText_replicate_a, strLenMk, List.length_replicate]
    omega
  have hsmall : (cleanText "hi").length ≤ 2000 := by decide
  exact ⟨⟨hbig, (processAndSaveDocument_chunking_policy envAllOk 1 "T"
      bigText "u" "safety" []).1 hbig⟩,
    ⟨hsmall, (processAndSaveDocument_chunking_policy envAllOk 2 "T"
      "hi" "u" "safety" []).2 hsmall⟩⟩

/-- **C6 counterexample.** With the embedding provider failing, a small
(non-split) document is stored with an EMPTY embedding — it does not
hold exactly one embedding, contradicting "this holds for every outcome
of the embedding provider". -/
theorem small_document_without_embedding :
    (processAndSaveDocument envAllDown 1 "T" "hi" "u" "safety" []).map
      StoredDoc.embedding = [[]]
  ∧ (processAndSaveDocument envAllDown 1 "T" "hi" "u" "safety" []).map
      StoredDoc.isChunk = [false]
  ∧ generateEmbedding envAllDown (cleanText "hi") = none :=
  ⟨by decide, by decide, rfl⟩

/-- **C6 (amended).** After every ingestion: a split parent record holds
no embedding; each chunk record's embedding slot holds exactly the
provider's vector for its own chunk text when the provider succeeded,
and is EMPTY when the provider failed; a non-split document's record
likewise holds the provider's vector for the cleaned content on
success and is empty on failure (so "exactly one embedding" holds only
for successful provider outcomes, not for every outcome). -/
theorem processAndSaveDocument_embedding_placement (env : Env)
    (nextId : Nat) (title content userId category : String)
    (tags : List String) :
    ((cleanText content).length > 2000 →
      ∃ parent chunkRecs,
        processAndSaveDocument env nextId title content userId category
          tags = parent :: chunkRecs
        ∧ parent.isChunk = false ∧ parent.embedding = []
        ∧ ∀ r ∈ chunkRecs,
            r.isChunk = true
            ∧ r.embedding = (generateEmbedding env r.content).getD []
            ∧ ∀ v, generateEmbedding env r.content = some v →
                r.embedding = v)
  ∧ ((cleanText content).length ≤ 2000 →
      ∃ d,
        processAndSaveDocument env nextId title content userId category
          tags = [d]
        ∧ d.isChunk = false
        ∧ (∀ v, generateEmbedding env (cleanText content) = some v →
            d.embedding = v)
        ∧ (generateEmbedding env (cleanText content) = none →
            d.embedding = [])) := by
  constructor
  · intro h
    rw [processAndSaveDocument_large_eq env nextId title content userId
      category tags h]
    refine ⟨_, _, rfl, rfl, rfl, ?_⟩
    intro r hr
    simp only [List.mem_map] at hr
    obtain ⟨p, _, rfl⟩ := hr
    refine ⟨rfl, rfl, fun v hv => ?_⟩
    simp only [hv, Option.getD_some]
  · intro h
    rw [processAndSaveDocument_small_eq env nextId title content userId
      category tags (by omega)]
    refine ⟨_, rfl, rfl, fun v hv => ?_, fun hv => ?_⟩
    · simp only [hv, Option.getD_some]
    · simp only [hv, Option.getD_none]

/-- Witness for the amended C6 at a concrete input. -/
theorem processAndSaveDocument_embedding_placement_witness :
    (cleanText "hi").length ≤ 2000
  ∧ ∃ d,
      processAndSaveDocument envAllOk 1 "T" "hi" "u" "safety" [] = [d]
      ∧ d.isChunk = false
      ∧ (∀ v, generateEmbedding envAllOk (cleanText "hi") = some v →
          d.embedding = v)
      ∧ (generateEmbedding envAllOk (cleanText "hi") = none →
          d.embedding = []) :=
  ⟨by decide, (processAndSaveDocument_embedding_placement envAllOk 1 "T"
    "hi" "u" "safety" []).2 (by decide)⟩

/-! ## C7: prompt construction

The claim says each context document is rendered with its index, title,
CATEGORY, optional relevance percentage, and truncated body.  The
rendering in `generateAnswer` (ragService.ts line 114) does not include
the document's category. -/

theorem strDataAppend (a b : String) :
    (a ++ b).data = a.data ++ b.data := by
  cases a; cases b; rfl

/-- **C7 counterexample.** Two context documents identical except for
their category render to the same prompt text, and the rendered entry
does not contain the category text at all. -/
theorem category_not_rendered :
    docSecurity.category = "security"
  ∧ docHealth.category = "health"
  ∧ docSecurity ≠ docHealth
  ∧ renderContextDoc 0 docSecurity = renderContextDoc 0 docHealth
  ∧ ¬ (("security".data : List Char) <:+:
      (renderContextDoc 0 docSecurity).data) :=
  ⟨rfl, rfl, by decide, rfl, by decide⟩

set_option maxRecDepth 20000 in
/-- **C7 (amended).** For every prompt built by `generateAnswer`: with
empty context, the context block is exactly
`'No specific documents found in the database.'` and the context block
always appears inside the prompt; with non-empty context, each document
is rendered with a 1-based index, its title, a relevance percentage
exactly when a nonzero similarity score exists, and its body truncated
to the 1000-character budget (at most 1003 characters with the
ellipsis) — the category is NOT part of the rendering. -/
theorem prompt_construction (question : String) (context : List RDoc) :
    buildContextText [] = "No specific documents found in the database."
  ∧ (buildContextText context).data <:+: (buildPrompt question context).data
  ∧ (context ≠ [] → buildContextText context
      = String.intercalate "\n\n"
        (context.enum.map (fun p => renderContextDoc p.1 p.2)))
  ∧ (∀ d : RDoc, relevanceInfo d = ""
      ↔ (d.similarity = none ∨ d.similarity = some 0))
  ∧ (∀ (i : Nat) (d : RDoc), renderContextDoc i d
      = "Document " ++ toString (i + 1) ++ ": " ++ d.title
        ++ relevanceInfo d ++ "\nContent: " ++ truncateText d.content 1000)
  ∧ (∀ s : String, (truncateText s 1000).length ≤ 1003) := by
  refine ⟨rfl, ?_, ?_, ?_, fun i d => rfl, ?_⟩
  · have hshape : buildPrompt question context
        = (("System: You are \"ዘብ AI\" (Zeb AI), the smart campus safety assistant for ASTU. Answer concisely and professionally."
            ++ "\n\n"
            ++ "Instructions: Use the CONTEXT DOCUMENTS to answer the USER QUESTION. If you must use general knowledge, clearly state it\x27s general advice. If this is an active emergency, give emergency contacts and safety guidance. Do NOT fabricate ASTU-specific facts. Cite document titles when possible."
            ++ "\n\n")
          ++ ("CONTEXT DOCUMENTS:\n" ++ buildContextText context))
          ++ "\n\n" ++ ("USER QUESTION:\n" ++ question) := rfl
    refine ⟨(("System: You are \"ዘብ AI\" (Zeb AI), the smart campus safety assistant for ASTU. Answer concisely and professionally."
        ++ "\n\n"
        ++ "Instructions: Use the CONTEXT DOCUMENTS to answer the USER QUESTION. If you must use general knowledge, clearly state it\x27s general advice. If this is an active emergency, give emergency contacts and safety guidance. Do NOT fabricate ASTU-specific facts. Cite document titles when possible."
        ++ "\n\n")
      ++ "CONTEXT DOCUMENTS:\n").data,
      ("\n\n" ++ ("USER QUESTION:\n" ++ question)).data, ?_⟩
    rw [hshape]
    simp only [strDataAppend, List.append_assoc]
  · intro h
    unfold buildContextText
    rw [if_pos (List.length_pos.mpr h)]
  · intro d
    constructor
    · intro he
      rcases hs : d.similarity with _ | s
      · exact Or.inl rfl
      · by_cases h0 : s = 0
        · exact Or.inr (by rw [h0])
        · exfalso
          have he2 : relevanceInfo d
              = " (Relevance: " ++ toFixed1 (s * 100) ++ "%)" := by
            unfold relevanceInfo
            rw [hs]
            show (if s = 0 then ""
                else " (Relevance: " ++ toFixed1 (s * 100) ++ "%)")
              = " (Relevance: " ++ toFixed1 (s * 100) ++ "%)"
            rw [if_neg h0]
          have hcontra := he2.symm.trans he
          have hlen := congrArg String.length hcontra
          rw [strLenAppend, strLenAppend] at hlen
          rw [show (" (Relevance: " : String).length = 13 from rfl,
            show ("%)" : String).length = 2 from rfl,
            show ("" : String).length = 0 from rfl] at hlen
          omega
    · intro h
      rcases h with h | h <;> simp [relevanceInfo, h]
  · intro s
    unfold truncateText
    split
    · next h => omega
    · rw [strLenAppend, strLenMk, List.length_take]
      rw [show ("..." : String).length = 3 from rfl]
      omega

/-- Witness for the amended C7 at a concrete input. -/
theorem prompt_construction_witness :
    ([docSecurity] ≠ ([] : List RDoc))
  ∧ buildContextText [docSecurity]
      = String.intercalate "\n\n"
        ([docSecurity].enum.map (fun p => renderContextDoc p.1 p.2)) :=
  ⟨by decide, (prompt_construction "q" [docSecurity]).2.2.1 (by decide)⟩

/-! ## C8: deleting a parent document cascades to its chunks -/

/-- **C8.** For every store and every non-chunk (parent) document in it:
provided every chunk that references the parent is matched by a truthy
positive `chunkCount` on the parent (exactly what ingestion establishes
— a split parent records `chunkCount = number of chunks ≥ 1`, and an
unsplit parent has no chunks), deleting the parent removes every record
referencing it, so querying for chunks of the deleted parent returns the
empty set; the handler answers 200. -/
theorem deleteDocument_cascades (store : List StoredDoc) (docId : Nat)
    (d : StoredDoc)
    (hfind : store.find? (fun r => r.id == docId) = some d)
    (hparent : d.isChunk = false)
    (hwf : (∃ r ∈ store, r.parentDocumentId = some docId) →
      chunkCountTruthy d = true) :
    chunksOf (deleteDocument store docId).1 docId = []
  ∧ (deleteDocument store docId).2 = 200 := by
  unfold deleteDocument
  rw [hfind]
  simp only []
  refine ⟨?_, trivial⟩
  by_cases ht : chunkCountTruthy d = true
  · rw [if_pos ⟨hparent, ht⟩]
    unfold chunksOf
    rw [List.filter_eq_nil_iff]
    intro r hr
    have hr2 : r ∈ store.filter
        (fun r => r.parentDocumentId ≠ some docId) :=
      (List.eraseP_sublist _).subset hr
    rw [List.mem_filter] at hr2
    simpa using hr2.2
  · have hnone : ¬ ∃ r ∈ store, r.parentDocumentId = some docId :=
      fun hex => ht (hwf hex)
    rw [if_neg (fun hand => ht hand.2)]
    unfold chunksOf
    rw [List.filter_eq_nil_iff]
    intro r hr
    have hr2 : r ∈ store := (List.eraseP_sublist _).subset hr
    simp only [decide_eq_true_eq]
    exact fun hp => hnone ⟨r, hr2, hp⟩

/-- Witness for C8 at a concrete store: a parent with two chunks. -/
theorem deleteDocument_cascades_witness :
    storeW.find? (fun r => r.id == 1) = some (storeW.get ⟨0, by decide⟩)
  ∧ chunksOf (deleteDocument storeW 1).1 1 = [] := by
  refine ⟨by decide, ?_⟩
  exact (deleteDocument_cascades storeW 1 (storeW.get ⟨0, by decide⟩)
    (by decide) (by decide) (fun _ => by decide)).1

/-! ## C9: persistence failures

Only the two `Chat.create` message writes are inside the logging
`try/catch` (chatController_20260214171145.ts lines 63–80); the
`Conversation` find/save/create calls (lines 44–61) are not, so their
failures propagate to the outer catch and fail the request with 500. -/

/-- **C9 counterexample.** A failing `Conversation.create` — a
conversation-history write — fails the whole request with a 500 error
payload even though the answer was already generated. -/
theorem conversation_write_failure_fails_request :
    envConvDown.createConv "u" "help" (jsSubstring "Answer" 0 100)
      = .error "db write failed"
  ∧ Controller171145.askQuestion envConvDown (some "u")
      ⟨some "help", none⟩
      = resp500 "Error processing your question" "db write failed"
  ∧ (Controller171145.askQuestion envConvDown (some "u")
      ⟨some "help", none⟩).success = false :=
  ⟨rfl, by decide, by decide⟩

/-- **C9 (amended).** For every ask request that reaches the persistence
stage with the conversation record written successfully, a failure of
the chat message-history writes (`Chat.create`) is absorbed (only
logged): the answer is still returned with HTTP 200 and
`success: true`, for every outcome of the `createChat` calls.  (A
failure of the conversation-record write itself is NOT absorbed — see
the counterexample.) -/
theorem chat_history_failure_nonfatal (env : Env) (uid q : String)
    (rc : Option String) (ans : String) (docs : List RDoc)
    (cid : String) (tr tr2 : List CallEv)
    (hq : (jsTrim q).length ≠ 0)
    (hpq : processQuestionT env q = (.ok (ans, docs), tr))
    (hconv : convPhaseT env uid rc q ans = (.ok cid, tr2)) :
    Controller171145.askQuestion env (some uid) ⟨some q, rc⟩
      = { status := 200, success := true, message := none,
          answer := some ans, sources := some docs,
          conversationId := some cid, errorMsg := none } := by
  simp [Controller171145.askQuestion, Controller171145.askQuestionT,
    hpq, hconv, hq]

/-- Witness for the amended C9 at a concrete input with both
`Chat.create` calls failing. -/
theorem chat_history_failure_nonfatal_witness :
    envChatDown.createChat "u" "c1" "user" "help"
      = .error "db write failed"
  ∧ Controller171145.askQuestion envChatDown (some "u")
      ⟨some "help", none⟩
      = { status := 200, success := true, message := none,
          answer := some "Answer", sources := some [],
          conversationId := some "c1", errorMsg := none } :=
  ⟨rfl, chat_history_failure_nonfatal envChatDown "u" "help" none
    "Answer" [] "c1" _ _ (by decide) rfl rfl⟩

/-! ## C10: derived conversation title -/

theorem createConv_not_mem_generateEmbeddingT (env : Env)
    (q u t lm : String) :
    CallEv.createConv u t lm ∉ (generateEmbeddingT env q).2 := by
  unfold generateEmbeddingT
  by_cases hk : env.voyageKey = false
  · simp [hk]
  · rcases hr : env.voyageResponse q with m | r
    · simp [hk, hr]
    · rcases hd : r.data with _ | ⟨d0, rest⟩ <;> simp [hk, hr, hd]

theorem createConv_not_mem_searchDocumentsT (env : Env) (q : String)
    (emb : Option (List ℚ)) (lim : Nat) (u t lm : String) :
    CallEv.createConv u t lm ∉ (searchDocumentsT env q emb lim).2 := by
  unfold searchDocumentsT
  rcases emb with _ | e
  · simp
  · by_cases he : e.length > 0
    · rcases hv : env.vectorSearch e lim with m | rs
      · simp [he, hv]
      · by_cases hrs : rs.length > 0 <;> simp [he, hv, hrs]
    · simp [he]

theorem createConv_not_mem_generateAnswerT (env : Env) (q : String)
    (ctx : List RDoc) (u t lm : String) :
    CallEv.createConv u t lm ∉ (generateAnswerT env q ctx).2 := by
  unfold generateAnswerT
  rcases hg : env.gemini (buildPrompt q ctx) with m | tx
  · simp [hg]
  · by_cases ht : (jsTrim tx).length = 0 <;> simp [hg, ht]

theorem createConv_not_mem_processQuestionT (env : Env)
    (q u t lm : String) :
    CallEv.createConv u t lm ∉ (processQuestionT env q).2 := by
  unfold processQuestionT
  simp only [List.mem_append, not_or]
  exact ⟨⟨createConv_not_mem_generateEmbeddingT env q u t lm,
    createConv_not_mem_searchDocumentsT env q _ 3 u t lm⟩,
    createConv_not_mem_generateAnswerT env q _ u t lm⟩

theorem createConv_mem_convPhaseT (env : Env) (uid : String)
    (rc : Option String) (q ans u t lm : String)
    (h : CallEv.createConv u t lm ∈ (convPhaseT env uid rc q ans).2) :
    u = uid
  ∧ t = (if q.length > 50 then jsSubstring q 0 47 ++ "..." else q) := by
  unfold convPhaseT at h
  rcases rc with _ | cid
  · simp only [] at h
    rcases hcc : env.createConv uid
        (if q.length > 50 then jsSubstring q 0 47 ++ "..." else q)
        (jsSubstring ans 0 100) with m | nid <;>
      rw [hcc] at h <;> simp at h <;> exact ⟨h.1, h.2.1⟩
  · simp only [] at h
    rcases hf : env.findConv cid uid with m | b
    · rw [hf] at h; simp at h
    · rcases b with _ | _
      · rw [hf] at h
        simp only [] at h
        rcases hcc : env.createConv uid
            (if q.length > 50 then jsSubstring q 0 47 ++ "..." else q)
            (jsSubstring ans 0 100) with m | nid <;>
          rw [hcc] at h <;> simp at h <;> exact ⟨h.1, h.2.1⟩
      · rw [hf] at h
        simp only [] at h
        rcases hs : env.saveConv cid (jsSubstring ans 0 100) with m | _ <;>
          rw [hs] at h <;> simp at h

theorem createConv_not_mem_chatPhaseT (env : Env)
    (uid cid q ans u t lm : String) :
    CallEv.createConv u t lm ∉ chatPhaseT env uid cid q ans := by
  unfold chatPhaseT
  rcases h1 : env.createChat uid cid "user" q with m | _ <;> simp [h1]

theorem createConv_not_mem_generateEmbeddingT540 (env : Env)
    (q u t lm : String) :
    CallEv.createConv u t lm
      ∉ (Controller100540.generateEmbeddingT env q).2 := by
  unfold Controller100540.generateEmbeddingT
  rcases hr : env.voyageResponse q with m | r
  · simp [hr]
  · rcases hd : r.data with _ | ⟨d0, rest⟩ <;> simp [hr, hd]

theorem createConv_not_mem_retrieveT540 (env : Env) (q : String)
    (emb : Option (List ℚ)) (u t lm : String) :
    CallEv.createConv u t lm
      ∉ (Controller100540.retrieveT env q emb).2 := by
  unfold Controller100540.retrieveT
    Controller100540.findRelevantDocumentsByEmbeddingT
    Controller100540.findRelevantDocumentsT
  rcases emb with _ | e
  · rcases hf : env.findSimilar q 3 with m | ds <;> simp [hf]
  · by_cases he : e.length > 0
    · rcases hv : env.vectorSearch e 3 with m | rs <;> simp [he, hv]
    · rcases hf : env.findSimilar q 3 with m | ds <;> simp [he, hf]

theorem createConv_not_mem_generateAIResponseT540 (env : Env)
    (q : String) (ctx : List RDoc) (u t lm : String) :
    CallEv.createConv u t lm
      ∉ (Controller100540.generateAIResponseT env q ctx).2 := by
  unfold Controller100540.generateAIResponseT
  by_cases hk : env.geminiKey = false
  · simp [hk]
  · rcases hg : env.gemini (Controller100540.buildPrompt540 q ctx)
      with m | tx <;> simp [hk, hg]

/-- **C10.** In both controller snapshots, whenever an ask request
creates a new conversation, the created conversation's title equals the
question itself when the question has at most 50 characters, and
otherwise the first 47 characters of the question followed by `'...'`;
in either case the title never exceeds 50 characters. -/
theorem conversation_title_from_question (env : Env)
    (user : Option String) (body : AskBody) (u t lm : String)
    (h : CallEv.createConv u t lm
        ∈ (Controller171145.askQuestionT env user body).2
      ∨ CallEv.createConv u t lm
        ∈ (Controller100540.askQuestionT env user body).2) :
    ∃ q, body.question = some q
      ∧ t = (if q.length > 50 then jsSubstring q 0 47 ++ "..." else q)
      ∧ t.length ≤ 50 := by
  rcases h with h | h
  · unfold Controller171145.askQuestionT at h
    rcases user with _ | uid
    · simp at h
    · rcases hq : body.question with _ | q
      · rw [hq] at h; simp at h
      · rw [hq] at h
        simp only [] at h
        by_cases hv : (jsTrim q).length = 0
        · rw [if_pos hv] at h; simp at h
        · rw [if_neg hv] at h
          rcases hp : processQuestionT env q with ⟨res, tr⟩
          rw [hp] at h
          have htr : (processQuestionT env q).2 = tr := by rw [hp]
          rcases res with e | ⟨ans, docs⟩
          · simp only [] at h
            rw [← htr] at h
            exact absurd h (createConv_not_mem_processQuestionT env q u t lm)
          · simp only [] at h
            rcases hc : convPhaseT env uid body.conversationId q ans
              with ⟨cres, tr2⟩
            rw [hc] at h
            have htr2 :
                (convPhaseT env uid body.conversationId q ans).2 = tr2 := by
              rw [hc]
            rcases cres with e | cid
            · simp only [List.mem_append] at h
              rcases h with h | h
              · rw [← htr] at h
                exact absurd h
                  (createConv_not_mem_processQuestionT env q u t lm)
              · rw [← htr2] at h
                obtain ⟨hu, ht⟩ := createConv_mem_convPhaseT env uid
                  body.conversationId q ans u t lm h
                exact ⟨q, rfl, ht, ht ▸ deriveTitle_le_50 q⟩
            · simp only [List.mem_append] at h
              rcases h with (h | h) | h
              · rw [← htr] at h
                exact absurd h
                  (createConv_not_mem_processQuestionT env q u t lm)
              · rw [← htr2] at h
                obtain ⟨hu, ht⟩ := createConv_mem_convPhaseT env uid
                  body.conversationId q ans u t lm h
                exact ⟨q, rfl, ht, ht ▸ deriveTitle_le_50 q⟩
              · exact absurd h
                  (createConv_not_mem_chatPhaseT env uid cid q ans u t lm)
  · unfold Controller100540.askQuestionT at h
    rcases user with _ | uid
    · simp at h
    · rcases hq : body.question with _ | q
      · rw [hq] at h; simp at h
      · rw [hq] at h
        simp only [] at h
        by_cases hv : (jsTrim q).length = 0
        · rw [if_pos hv] at h; simp at h
        · rw [if_neg hv] at h
          by_cases hl : q.length > 1000
          · rw [if_pos hl] at h; simp at h
          · rw [if_neg hl] at h
            rcases hp1 : Controller100540.generateEmbeddingT env q
              with ⟨emb, tr1⟩
            rw [hp1] at h
            have htr1 :
                (Controller100540.generateEmbeddingT env q).2 = tr1 := by
              rw [hp1]
            simp only [] at h
            rcases hp2 : Controller100540.retrieveT env q emb
              with ⟨docs, trR⟩
            rw [hp2] at h
            have htrR : (Controller100540.retrieveT env q emb).2 = trR := by
              rw [hp2]
            simp only [] at h
            rcases hp3 : Controller100540.generateAIResponseT env q docs
              with ⟨ans, trA⟩
            rw [hp3] at h
            have htrA :
                (Controller100540.generateAIResponseT env q docs).2
                  = trA := by
              rw [hp3]
            simp only [] at h
            rcases hc : convPhaseT env uid body.conversationId q ans
              with ⟨cres, tr2⟩
            rw [hc] at h
            have htr2 :
                (convPhaseT env uid body.conversationId q ans).2 = tr2 := by
              rw [hc]
            rcases cres with e | cid
            · simp only [List.mem_append] at h
              rcases h with ((h | h) | h) | h
              · rw [← htr1] at h
                exact absurd h
                  (createConv_not_mem_generateEmbeddingT540 env q u t lm)
              · rw [← htrR] at h
                exact absurd h
                  (createConv_not_mem_retrieveT540 env q emb u t lm)
              · rw [← htrA] at h
                exact absurd h
                  (createConv_not_mem_generateAIResponseT540 env q docs
                    u t lm)
              · rw [← htr2] at h
                obtain ⟨hu, ht⟩ := createConv_mem_convPhaseT env uid
                  body.conversationId q ans u t lm h
                exact ⟨q, rfl, ht, ht ▸ deriveTitle_le_50 q⟩
            · simp only [List.mem_append] at h
              rcases h with (((h | h) | h) | h) | h
              · rw [← htr1] at h
                exact absurd h
                  (createConv_not_mem_generateEmbeddingT540 env q u t lm)
              · rw [← htrR] at h
                exact absurd h
                  (createConv_not_mem_retrieveT540 env q emb u t lm)
              · rw [← htrA] at h
                exact absurd h
                  (createConv_not_mem_generateAIResponseT540 env q docs
                    u t lm)
              · rw [← htr2] at h
                obtain ⟨hu, ht⟩ := createConv_mem_convPhaseT env uid
                  body.conversationId q ans u t lm h
                exact ⟨q, rfl, ht, ht ▸ deriveTitle_le_50 q⟩
              · exact absurd h
                  (createConv_not_mem_chatPhaseT env uid cid q ans u t lm)

/-- Witness for C10 at a concrete input: asking `"hi"` with no
conversation id creates a conversation titled `"hi"`. -/
theorem conversation_title_from_question_witness :
    CallEv.createConv "u" "hi" (jsSubstring "Answer" 0 100)
      ∈ (Controller171145.askQuestionT envAllOk (some "u")
        ⟨some "hi", none⟩).2
  ∧ ∃ q, (AskBody.mk (some "hi") none).question = some q
      ∧ "hi" = (if q.length > 50 then jsSubstring q 0 47 ++ "..." else q)
      ∧ ("hi" : String).length ≤ 50 :=
  ⟨by decide,
    conversation_title_from_question envAllOk (some "u")
      ⟨some "hi", none⟩ "u" "hi" (jsSubstring "Answer" 0 100)
      (Or.inl (by decide))⟩
